import Mathlib

/-!
Verification development for the Vulkan device-recreation reproduction
program (`main.cpp`).  The program is shallowly embedded: external
collaborators (the Vulkan implementation and the GLFW windowing layer)
are modelled as environments supplying the outcome of each call, and
every function of the source is translated into a Lean function over
those environments.  Machine integers that matter (the `uint32_t`
member `m_gq_fam_idx` initialised to `-1`, the `UINT64_MAX` timeout)
are modelled as the `Nat` values they hold.
-/

/-- Exceptions the program can observe.  `deviceLost` stands for
`vk::DeviceLostError`; `runtimeError msg` stands for every other
`std::exception` (`std::runtime_error` and the remaining
vulkan.hpp error classes), which `main` treats uniformly through its
`catch (std::exception&)` handler. -/
inductive VkError where
  | deviceLost
  | runtimeError (msg : String)
deriving DecidableEq, Repr

/-- Outcome of a single call into the graphics API: it either returns a
value or throws. -/
inductive VkResult (α : Type) where
  | success (a : α)
  | exc (e : VkError)
deriving DecidableEq, Repr

/-- Outcome of one lifecycle step.  `ub` marks an execution in which the
C++ source indexes a vector out of bounds (undefined behaviour), which
is neither a normal return nor a catchable exception. -/
inductive StepResult where
  | ok
  | thrown (e : VkError)
  | ub
deriving DecidableEq, Repr

/-- The two semaphores of the scene: `m_draw_semaphore` is signalled by
image acquisition (the "image available" semaphore) and
`m_present_semaphore` is signalled by the submit (the "render
complete" semaphore). -/
inductive Sem where
  | drawSemaphore
  | presentSemaphore
deriving DecidableEq, Repr

/-- Pipeline stages mentioned by the program. -/
inductive PipelineStage where
  | colorAttachmentOutput
deriving DecidableEq, Repr

/-- `vk::Format` values the program mentions. -/
inductive VkFormat where
  | eUndefined
  | eB8G8R8A8Unorm
  | eR8G8B8A8Unorm
  | eD32Sfloat
deriving DecidableEq, Repr

/-- `vk::PresentModeKHR` values the program mentions. -/
inductive PresentModeKHR where
  | eFifo
  | eMailbox
  | eImmediate
deriving DecidableEq, Repr

/-- Observable calls issued to GLFW and to the Vulkan implementation.
Handles and indices are `Nat`; clear-colour components are the exact
small integers of the source (`{0, 0, 1, 1}`). -/
inductive ApiCall where
  | pollEvents
  | acquireNextImageKHR (timeout : Nat) (signalSem : Sem)
  | waitForFences (fenceIdx : Nat) (waitAll : Bool) (timeout : Nat)
  | resetFences (fenceIdx : Nat)
  | cmdBegin (cmdIdx : Nat)
  | cmdBeginRenderPass (cmdIdx : Nat) (framebufferIdx : Nat)
      (clearR clearG clearB clearA : Nat)
  | cmdBindPipeline (cmdIdx : Nat)
  | cmdDraw (cmdIdx vertexCount instanceCount firstVertex firstInstance : Nat)
  | cmdEndRenderPass (cmdIdx : Nat)
  | cmdEnd (cmdIdx : Nat)
  | queueSubmit (cmdIdx : Nat) (waitSem : Sem) (waitStage : PipelineStage)
      (signalSem : Sem) (fenceIdx : Nat)
  | queuePresentKHR (waitSem : Sem) (imageIdx : Nat)
  | deviceWaitIdle
  | glfwDestroyWindowCall (h : Nat)
  | glfwTerminateCall
deriving DecidableEq, Repr

/-- Hardcoded configuration constants of `Scene` (`m_width`,
`m_height`, `m_sw_num_images`, `m_swapchain_format`,
`m_present_mode`). -/
def m_width : Nat := 1280

def m_height : Nat := 720

def m_sw_num_images : Nat := 2

def m_swapchain_format : VkFormat := VkFormat.eB8G8R8A8Unorm

def m_present_mode : PresentModeKHR := PresentModeKHR.eFifo

/-- `UINT64_MAX`, the timeout argument meaning "wait forever". -/
def UINT64_MAX : Nat := 18446744073709551615

/-- The data members of `Scene`.  Owned Vulkan handles that the claims
never need to distinguish are tracked as presence booleans; the vectors
are tracked with their elements (`fences` stores each fence's
created-signalled flag, the other vectors store opaque `Nat` handles).
`window` is `none` for a null `GLFWwindow*`. -/
structure SceneState where
  window : Option Nat
  inst : Bool
  physDev : Option Nat
  gqFamIdx : Nat
  device : Bool
  grQueue : Bool
  surface : Bool
  swapchain : Bool
  swapchainImgs : List Nat
  swapchainImgViews : List Nat
  renderPass : Bool
  framebuffers : List Nat
  cmdPool : Bool
  commandBuffers : List Nat
  vertShader : Bool
  fragShader : Bool
  pipelineLayout : Bool
  pipeline : Bool
  fences : List Bool
  presentSemaphoreCreated : Bool
  drawSemaphoreCreated : Bool
deriving DecidableEq, Repr

/-- A freshly constructed `Scene`, restricted to the members with
well-defined default states (empty vectors, null unique handles,
`m_gq_fam_idx = -1`, i.e. `4294967295` as `uint32_t`).  The `window`
field here is a placeholder that `initializeScene` overwrites in its
first step before any read; the source's `m_window` has NO initialiser
and is indeterminate until `createWindowAndSurface` assigns it, which
is modelled separately by `shutdownChecked`'s `windowMember` argument
(`none` = never assigned, reading it is undefined behaviour). -/
def initialScene : SceneState :=
  { window := none
  , inst := false
  , physDev := none
  , gqFamIdx := 4294967295
  , device := false
  , grQueue := false
  , surface := false
  , swapchain := false
  , swapchainImgs := []
  , swapchainImgViews := []
  , renderPass := false
  , framebuffers := []
  , cmdPool := false
  , commandBuffers := []
  , vertShader := false
  , fragShader := false
  , pipelineLayout := false
  , pipeline := false
  , fences := []
  , presentSemaphoreCreated := false
  , drawSemaphoreCreated := false }

/-- State of the GLFW library: whether `glfwInit` has succeeded and not
yet been followed by `glfwTerminate`, and the handles of the windows
currently alive. -/
structure GlfwState where
  initialized : Bool
  windows : List Nat
deriving DecidableEq, Repr

/-- `glfwDestroyWindow h`: per the GLFW documentation the function
returns immediately with `GLFW_NOT_INITIALIZED` (destroying nothing)
when the library is not initialised; otherwise it frees the window.
Returns the new library state and the list of handles actually
released. -/
def glfwDestroyWindow (g : GlfwState) (h : Nat) : GlfwState × List Nat :=
  if g.initialized then ({ g with windows := g.windows.erase h }, [h])
  else (g, [])

/-- `glfwTerminate`: a no-op when the library is not initialised;
otherwise destroys all remaining windows and de-initialises the
library. -/
def glfwTerminate (g : GlfwState) : GlfwState × List Nat :=
  if g.initialized then ({ initialized := false, windows := [] }, g.windows)
  else (g, [])

/-- Result of one `Scene::shutdown()` call: the library and scene
states after the call, the sequence of external calls issued, and the
window handles whose storage was actually released. -/
structure ShutdownOut where
  glfw : GlfwState
  scene : SceneState
  calls : List ApiCall
  released : List Nat
deriving DecidableEq, Repr

/-- `Scene::shutdown()`.  `waitIdleRes` is the outcome the device would
report for `vkDeviceWaitIdle`; the source wraps the wait in
`try ... catch (...) {}`, so the outcome is discarded and the function
is total (never throws).  No member of the scene is reset, in
particular `m_window` keeps its value. -/
def shutdown (waitIdleRes : VkResult Unit) (g : GlfwState) (s : SceneState) :
    ShutdownOut :=
  let waitCalls : List ApiCall := if s.device then [ApiCall.deviceWaitIdle] else []
  let _ := waitIdleRes
  match s.window with
  | some h =>
      let (g1, rel1) := glfwDestroyWindow g h
      let (g2, rel2) := glfwTerminate g1
      { glfw := g2, scene := s
      , calls := waitCalls ++ [ApiCall.glfwDestroyWindowCall h, ApiCall.glfwTerminateCall]
      , released := rel1 ++ rel2 }
  | none =>
      let (g2, rel2) := glfwTerminate g
      { glfw := g2, scene := s
      , calls := waitCalls ++ [ApiCall.glfwTerminateCall]
      , released := rel2 }

/-- `Scene::shutdown()` including the state of the `m_window` member
itself.  `m_window` has no initialiser, so on a `Scene` whose
`createWindowAndSurface` never ran the member holds an indeterminate
pointer; `windowMember` is `none` in that case and `some w` once the
member was assigned the value `w` (`w = none` for an assigned null).
`shutdown` evaluates `if (m_window)`: when the member was never
assigned this reads an indeterminate pointer — undefined behaviour —
so the call has no defined outcome; otherwise the call behaves as
`shutdown` on the scene carrying the assigned value.  (The device wait
that precedes the read is well-defined either way: `m_device`
default-constructs to a null handle.) -/
def shutdownChecked (waitIdleRes : VkResult Unit) (g : GlfwState)
    (windowMember : Option (Option Nat)) (s : SceneState) :
    Option ShutdownOut :=
  match windowMember with
  | none => none
  | some w => some (shutdown waitIdleRes g { s with window := w })

/-- Everything observable about one execution of `main`: the
`device_lost` flag and `return_value` at exit, which scene operations
ran, and whether the "re-initialization successful" line was
printed. -/
structure MainOutcome where
  deviceLost : Bool
  returnValue : Nat
  run1Called : Bool
  scene1ShutdownCalls : Nat
  scene2Constructed : Bool
  scene2InitCalled : Bool
  scene2RunCalled : Bool
  scene2ShutdownCalls : Nat
  reinitSuccessMsg : Bool
deriving DecidableEq, Repr

/-- `main`.  The three parameters are the outcomes the scenes'
`initialize()` and `run()` calls would produce in this execution
(`run1` matters only when `init1` succeeds, `init2` only when device
loss was flagged).  Mirrors the source exactly: one `try` block around
`scene.initialize(); scene.run();` with a `catch (vk::DeviceLostError)`
handler setting `device_lost` and a `catch (std::exception&)` handler
setting `return_value = 1`; `scene.shutdown()` outside the `try`; an
early `return` when `device_lost` is false; otherwise a second scene
whose `initialize()` is guarded only by `catch (std::exception&)`,
followed by its `shutdown()`. -/
def mainModel (init1 run1 init2 : VkResult Unit) : MainOutcome :=
  let firstTry : Bool × Nat × Bool :=
    match init1 with
    | .exc .deviceLost => (true, 0, false)
    | .exc (.runtimeError _) => (false, 1, false)
    | .success _ =>
      match run1 with
      | .exc .deviceLost => (true, 0, true)
      | .exc (.runtimeError _) => (false, 1, true)
      | .success _ => (false, 0, true)
  match firstTry with
  | (device_lost, return_value, run1Called) =>
    if device_lost = false then
      { deviceLost := false, returnValue := return_value
      , run1Called := run1Called, scene1ShutdownCalls := 1
      , scene2Constructed := false, scene2InitCalled := false
      , scene2RunCalled := false, scene2ShutdownCalls := 0
      , reinitSuccessMsg := false }
    else
      match init2 with
      | .success _ =>
        { deviceLost := true, returnValue := return_value
        , run1Called := run1Called, scene1ShutdownCalls := 1
        , scene2Constructed := true, scene2InitCalled := true
        , scene2RunCalled := false, scene2ShutdownCalls := 1
        , reinitSuccessMsg := true }
      | .exc _ =>
        { deviceLost := true, returnValue := 1
        , run1Called := run1Called, scene1ShutdownCalls := 1
        , scene2Constructed := true, scene2InitCalled := true
        , scene2RunCalled := false, scene2ShutdownCalls := 1
        , reinitSuccessMsg := false }

/-- Whether the first lifecycle raises `vk::DeviceLostError`: either
`initialize()` throws it, or `initialize()` returns and `run()` throws
it. -/
def firstLifecycleDeviceLost (init1 run1 : VkResult Unit) : Bool :=
  init1 = VkResult.exc VkError.deviceLost ∨
    (init1 = VkResult.success () ∧ run1 = VkResult.exc VkError.deviceLost)

/-- Whether a call outcome is a thrown non-device-loss error. -/
def isNonDeviceLossError (r : VkResult Unit) : Bool :=
  match r with
  | .exc (.runtimeError _) => true
  | _ => false

/-- `vk::SurfaceCapabilitiesKHR` fields the program reads. -/
structure SurfaceCaps where
  currentExtentW : Nat
  currentExtentH : Nat
  minImageCount : Nat
  maxImageCount : Nat
  supportsColorAttachment : Bool
deriving DecidableEq, Repr

/-- One entry of `getQueueFamilyProperties`: whether the family has the
graphics flag and how many queues it offers. -/
structure QueueFamilyProps where
  graphics : Bool
  queueCount : Nat
deriving DecidableEq, Repr

/-- Environment for one `initialize()` attempt: the value or outcome
each external call would produce.  A `VkResult Unit` field set to
`exc e` makes the corresponding creation call throw `e` (vulkan.hpp
translates failing result codes into exceptions); for the loops that
create several objects (image views, framebuffers) a failing outcome is
modelled as the first creation failing. -/
structure InitEnv where
  windowHandle : Option Nat
  availableInstanceExtensions : List String
  instanceCreate : VkResult Unit
  physDevices : List Nat
  queueFamilies : List QueueFamilyProps
  deviceCreate : VkResult Unit
  surfaceCreate : VkResult (Option Nat)
  surfaceSupport : Bool
  caps : SurfaceCaps
  surfaceFormats : List VkFormat
  presentModes : List PresentModeKHR
  swapchainCreate : VkResult Unit
  swapchainImages : List Nat
  imageViewCreate : VkResult Unit
  renderPassCreate : VkResult Unit
  framebufferCreate : VkResult Unit
  commandPoolCreate : VkResult Unit
  commandBufferAlloc : VkResult Unit
  vertShaderCreate : VkResult Unit
  fragShaderCreate : VkResult Unit
  pipelineLayoutCreate : VkResult Unit
  pipelineCreate : VkResult Unit
  fenceCreate : VkResult Unit
  semaphoreCreate : VkResult Unit
deriving DecidableEq, Repr

/-- `VK_KHR_SURFACE_EXTENSION_NAME`. -/
def VK_KHR_SURFACE_EXTENSION_NAME : String := "VK_KHR_surface"

/-- `VK_KHR_WIN32_SURFACE_EXTENSION_NAME`. -/
def VK_KHR_WIN32_SURFACE_EXTENSION_NAME : String := "VK_KHR_win32_surface"

/-- `isInstanceExtensionAvailable`: whether the extension name occurs
among the enumerated instance extension properties. -/
def isInstanceExtensionAvailable (env : InitEnv) (ext : String) : Bool :=
  env.availableInstanceExtensions.contains ext

/-- `Scene::createWindowAndSurface`: `m_window = glfwCreateWindow(...)`
(assignment happens before the null check), then throw if the returned
handle is null. -/
def createWindowAndSurface (env : InitEnv) (s : SceneState) :
    SceneState × StepResult :=
  let s1 := { s with window := env.windowHandle }
  match env.windowHandle with
  | none => (s1, .thrown (.runtimeError "Window Creation failed!"))
  | some _ => (s1, .ok)

/-- `Scene::initializeVKInstance`.  Note that the second availability
check (for the Win32 surface extension) throws a message built from
`VK_KHR_SURFACE_EXTENSION_NAME`, not from the Win32 extension name it
tested. -/
def initializeVKInstance (env : InitEnv) (s : SceneState) :
    SceneState × StepResult :=
  if !isInstanceExtensionAvailable env VK_KHR_SURFACE_EXTENSION_NAME then
    (s, .thrown (.runtimeError (VK_KHR_SURFACE_EXTENSION_NAME ++ " is not available!")))
  else if !isInstanceExtensionAvailable env VK_KHR_WIN32_SURFACE_EXTENSION_NAME then
    (s, .thrown (.runtimeError (VK_KHR_SURFACE_EXTENSION_NAME ++ " is not available!")))
  else
    match env.instanceCreate with
    | .exc e => (s, .thrown e)
    | .success _ => ({ s with inst := true }, .ok)

/-- The queue-family scan of `selectQueueFamilyAndPhysicalDevice`:
first index whose family has the graphics flag and a positive queue
count. -/
def findGraphicsFamilyFrom (fams : List QueueFamilyProps) (i : Nat) : Option Nat :=
  match fams with
  | [] => none
  | p :: rest =>
      if p.graphics && decide (p.queueCount > 0) then some i
      else findGraphicsFamilyFrom rest (i + 1)

/-- `Scene::selectQueueFamilyAndPhysicalDevice`: take the physical
device at index 0 (throwing if there is none), then scan the queue
families for a graphics-capable one with queues, throwing if the scan
fails. -/
def selectQueueFamilyAndPhysicalDevice (env : InitEnv) (s : SceneState) :
    SceneState × StepResult :=
  match env.physDevices with
  | [] => (s, .thrown (.runtimeError "Invalid Physical Device Index provided!"))
  | d :: _ =>
      let s1 := { s with physDev := some d }
      match findGraphicsFamilyFrom env.queueFamilies 0 with
      | some i => ({ s1 with gqFamIdx := i }, .ok)
      | none => (s1, .thrown (.runtimeError "Can not find graphics family index!"))

/-- `Scene::initializeDevice`: create the logical device with one queue
of family `m_gq_fam_idx` and the swapchain extension, then fetch the
graphics queue. -/
def initializeDevice (env : InitEnv) (s : SceneState) :
    SceneState × StepResult :=
  match env.deviceCreate with
  | .exc e => (s, .thrown e)
  | .success _ => ({ s with device := true, grQueue := true }, .ok)

/-- `Scene::createSurface`: create the Win32 surface; throw if the
returned handle is null or the queue family cannot present to it;
`m_surface` is assigned only on success. -/
def createSurface (env : InitEnv) (s : SceneState) :
    SceneState × StepResult :=
  match env.surfaceCreate with
  | .exc e => (s, .thrown e)
  | .success none => (s, .thrown (.runtimeError "Can not create Surface!"))
  | .success (some _) =>
      if !env.surfaceSupport then (s, .thrown (.runtimeError "Can not create Surface!"))
      else ({ s with surface := true }, .ok)

/-- `Scene::createSwapChainAndImages`: validate the surface
capabilities, formats and present modes in source order, then create
the swapchain and fetch its images.  All validation happens before the
swapchain object is created. -/
def createSwapChainAndImages (env : InitEnv) (s : SceneState) :
    SceneState × StepResult :=
  if m_width ≠ env.caps.currentExtentW ∨ m_height ≠ env.caps.currentExtentH then
    (s, .thrown (.runtimeError "chosen image size not supported by window surface"))
  else if m_sw_num_images < env.caps.minImageCount then
    (s, .thrown (.runtimeError "chosen image count is too small and not supported by the window surface"))
  else if env.caps.maxImageCount ≠ 0 ∧ m_sw_num_images > env.caps.maxImageCount then
    (s, .thrown (.runtimeError "chosen image count is too large and not supported by the window surface"))
  else if !env.caps.supportsColorAttachment then
    (s, .thrown (.runtimeError "window surface cannot be used as color attachment"))
  else if !(env.surfaceFormats.any fun f =>
      f = VkFormat.eUndefined ∨ f = m_swapchain_format) then
    (s, .thrown (.runtimeError "window surface not compatible with chosen color format"))
  else if !(env.presentModes.any fun m => m = m_present_mode) then
    (s, .thrown (.runtimeError "Chosen Present Mode is not supported!"))
  else
    match env.swapchainCreate with
    | .exc e => (s, .thrown e)
    | .success _ =>
        ({ s with swapchain := true, swapchainImgs := env.swapchainImages }, .ok)

/-- `Scene::createSwapChainImageViews`: one image view per swapchain
image, appended to `m_swapchain_img_views`. -/
def createSwapChainImageViews (env : InitEnv) (s : SceneState) :
    SceneState × StepResult :=
  match env.imageViewCreate with
  | .exc e => (s, .thrown e)
  | .success _ =>
      ({ s with swapchainImgViews := s.swapchainImgViews ++ s.swapchainImgs }, .ok)

/-- `Scene::createPass`. -/
def createPass (env : InitEnv) (s : SceneState) : SceneState × StepResult :=
  match env.renderPassCreate with
  | .exc e => (s, .thrown e)
  | .success _ => ({ s with renderPass := true }, .ok)

/-- `Scene::createFramebuffer`: for `i` from 0 to
`m_sw_num_images - 1`, read `m_swapchain_img_views[i]` (unchecked
`operator[]` — undefined behaviour when fewer image views exist) and
append a framebuffer. -/
def createFramebuffer (env : InitEnv) (s : SceneState) :
    SceneState × StepResult :=
  if s.swapchainImgViews.length < m_sw_num_images then (s, .ub)
  else
    match env.framebufferCreate with
    | .exc e => (s, .thrown e)
    | .success _ =>
        ({ s with framebuffers := s.framebuffers ++ List.range m_sw_num_images }, .ok)

/-- `Scene::allocateCommandBuffers`: create the command pool, then
allocate `m_sw_num_images` primary command buffers (the allocation
replaces `m_command_buffers`). -/
def allocateCommandBuffers (env : InitEnv) (s : SceneState) :
    SceneState × StepResult :=
  match env.commandPoolCreate with
  | .exc e => (s, .thrown e)
  | .success _ =>
      let s1 := { s with cmdPool := true }
      match env.commandBufferAlloc with
      | .exc e => (s1, .thrown e)
      | .success _ =>
          ({ s1 with commandBuffers := List.range m_sw_num_images }, .ok)

/-- `Scene::createShaderInterface`: create the empty pipeline layout. -/
def createShaderInterface (env : InitEnv) (s : SceneState) :
    SceneState × StepResult :=
  match env.pipelineLayoutCreate with
  | .exc e => (s, .thrown e)
  | .success _ => ({ s with pipelineLayout := true }, .ok)

/-- `Scene::createPipeline`: compile the vertex shader, the fragment
shader, then the graphics pipeline. -/
def createPipeline (env : InitEnv) (s : SceneState) :
    SceneState × StepResult :=
  match env.vertShaderCreate with
  | .exc e => (s, .thrown e)
  | .success _ =>
      let s1 := { s with vertShader := true }
      match env.fragShaderCreate with
      | .exc e => (s1, .thrown e)
      | .success _ =>
          let s2 := { s1 with fragShader := true }
          match env.pipelineCreate with
          | .exc e => (s2, .thrown e)
          | .success _ => ({ s2 with pipeline := true }, .ok)

/-- `Scene::initSyncEntities`: `m_sw_num_images` fences created with
`vk::FenceCreateFlagBits::eSignaled` (recorded as `true` entries),
then the draw and present semaphores. -/
def initSyncEntities (env : InitEnv) (s : SceneState) :
    SceneState × StepResult :=
  match env.fenceCreate with
  | .exc e => (s, .thrown e)
  | .success _ =>
      let s1 := { s with fences := s.fences ++ List.replicate m_sw_num_images true }
      match env.semaphoreCreate with
      | .exc e => (s1, .thrown e)
      | .success _ =>
          ({ s1 with drawSemaphoreCreated := true, presentSemaphoreCreated := true }, .ok)

/-- Sequencing of lifecycle steps: run the continuation only when the
step before it returned normally; a thrown exception or undefined
behaviour propagates, keeping the partially mutated scene. -/
def seqStep (r : SceneState × StepResult)
    (f : SceneState → SceneState × StepResult) : SceneState × StepResult :=
  match r with
  | (s, .ok) => f s
  | other => other

/-- `Scene::initialize`: the twelve setup steps in source order.  On a
throw, the object keeps every member already assigned (the caller must
still invoke `shutdown()`). -/
def initializeScene (env : InitEnv) (s : SceneState) : SceneState × StepResult :=
  seqStep (createWindowAndSurface env s) fun s =>
  seqStep (initializeVKInstance env s) fun s =>
  seqStep (selectQueueFamilyAndPhysicalDevice env s) fun s =>
  seqStep (initializeDevice env s) fun s =>
  seqStep (createSurface env s) fun s =>
  seqStep (createSwapChainAndImages env s) fun s =>
  seqStep (createSwapChainImageViews env s) fun s =>
  seqStep (createPass env s) fun s =>
  seqStep (createFramebuffer env s) fun s =>
  seqStep (allocateCommandBuffers env s) fun s =>
  seqStep (createShaderInterface env s) fun s =>
  seqStep (createPipeline env s) fun s =>
  initSyncEntities env s

/-- Environment for one iteration of the `while` loop in
`Scene::run()`: the close flag the event poll would leave on the
window, and the outcome of each throwing device call of the iteration
(`acquire` yields the image index on success). -/
structure FrameStim where
  windowShouldClose : Bool
  acquire : VkResult Nat
  fenceWait : VkResult Unit
  submitRes : VkResult Unit
  presentRes : VkResult Unit
deriving DecidableEq, Repr

/-- The recording performed by `Scene::buildCommandBuffer image_index`:
begin the buffer, begin the render pass on framebuffer `image_index`
with clear colour `{0, 0, 1, 1}`, bind the graphics pipeline, draw 3
vertices and 1 instance starting at vertex 0 / instance 0 (no vertex
or index buffer is ever bound), end the pass, end the buffer. -/
def buildCommandBuffer (i : Nat) : List ApiCall :=
  [ ApiCall.cmdBegin i
  , ApiCall.cmdBeginRenderPass i i 0 0 1 1
  , ApiCall.cmdBindPipeline i
  , ApiCall.cmdDraw i 3 1 0 0
  , ApiCall.cmdEndRenderPass i
  , ApiCall.cmdEnd i ]

/-- Result of running the loop of `Scene::run()` against a finite list
of iteration environments: the scene afterwards (`run` assigns no
member of `Scene`, only locals), the calls issued, and the way the
loop ended — `some (success ())` for a normal return through the close
flag, `some (exc e)` for a propagated exception, `none` when the
stimulus list was exhausted with the loop still going. -/
structure RunOut where
  scene : SceneState
  trace : List ApiCall
  outcome : Option (VkResult Unit)
deriving DecidableEq, Repr

/-- One iteration of the loop in `Scene::run()`: poll events; return
normally if the close flag is set; otherwise acquire the next image
index with timeout `UINT64_MAX` signalling `m_draw_semaphore`, wait
(waitAll, no timeout) on that image's fence and reset it, record the
command buffer, submit it waiting on `m_draw_semaphore` at the
colour-attachment-output stage and signalling `m_present_semaphore`
and the image's fence, then present waiting on
`m_present_semaphore`.  Returns the calls made and `some r` when the
loop ends with result `r`, `none` when it continues. -/
def runIter (st : FrameStim) : List ApiCall × Option (VkResult Unit) :=
  if st.windowShouldClose then ([ApiCall.pollEvents], some (.success ()))
  else
    let t0 := [ApiCall.pollEvents, ApiCall.acquireNextImageKHR UINT64_MAX Sem.drawSemaphore]
    match st.acquire with
    | .exc e => (t0, some (.exc e))
    | .success i =>
        let t1 := t0 ++ [ApiCall.waitForFences i true UINT64_MAX]
        match st.fenceWait with
        | .exc e => (t1, some (.exc e))
        | .success _ =>
            let t2 := t1 ++ [ApiCall.resetFences i] ++ buildCommandBuffer i ++
              [ApiCall.queueSubmit i Sem.drawSemaphore PipelineStage.colorAttachmentOutput
                 Sem.presentSemaphore i]
            match st.submitRes with
            | .exc e => (t2, some (.exc e))
            | .success _ =>
                let t3 := t2 ++ [ApiCall.queuePresentKHR Sem.presentSemaphore i]
                match st.presentRes with
                | .exc e => (t3, some (.exc e))
                | .success _ => (t3, none)

/-- `Scene::run()` driven by a finite list of iteration environments. -/
def runScene (s : SceneState) (stims : List FrameStim) : RunOut :=
  match stims with
  | [] => { scene := s, trace := [], outcome := none }
  | st :: rest =>
      match runIter st with
      | (tr, some r) => { scene := s, trace := tr, outcome := some r }
      | (tr, none) =>
          let tail := runScene s rest
          { scene := tail.scene, trace := tr ++ tail.trace, outcome := tail.outcome }

/-- The three unchecked `operator[]` accesses of a frame iteration
(`m_fences[image_index]`, `m_command_buffers[image_index]`,
`m_framebuffers[image_index]`) are within the vectors' bounds. -/
def runIterAccessesInBounds (s : SceneState) (i : Nat) : Prop :=
  i < s.fences.length ∧ i < s.commandBuffers.length ∧ i < s.framebuffers.length

/-- Host wait on a fence: blocks until the fence is signalled, so it
returns immediately exactly when the fence is already signalled. -/
def fenceWaitReturnsImmediately (signaled : Bool) : Bool :=
  signaled

/-- An environment in which every external call of `initialize()`
succeeds: the window opens, both surface extensions exist, one
graphics-capable adapter is found, the surface matches the requested
1280x720 extent, and the swapchain hands back exactly the two
requested images. -/
def goodEnv : InitEnv :=
  { windowHandle := some 1
  , availableInstanceExtensions :=
      [VK_KHR_SURFACE_EXTENSION_NAME, VK_KHR_WIN32_SURFACE_EXTENSION_NAME]
  , instanceCreate := .success ()
  , physDevices := [7]
  , queueFamilies := [{ graphics := true, queueCount := 1 }]
  , deviceCreate := .success ()
  , surfaceCreate := .success (some 3)
  , surfaceSupport := true
  , caps :=
      { currentExtentW := 1280, currentExtentH := 720
      , minImageCount := 2, maxImageCount := 0
      , supportsColorAttachment := true }
  , surfaceFormats := [VkFormat.eB8G8R8A8Unorm]
  , presentModes := [PresentModeKHR.eFifo]
  , swapchainCreate := .success ()
  , swapchainImages := [10, 11]
  , imageViewCreate := .success ()
  , renderPassCreate := .success ()
  , framebufferCreate := .success ()
  , commandPoolCreate := .success ()
  , commandBufferAlloc := .success ()
  , vertShaderCreate := .success ()
  , fragShaderCreate := .success ()
  , pipelineLayoutCreate := .success ()
  , pipelineCreate := .success ()
  , fenceCreate := .success ()
  , semaphoreCreate := .success () }

/-- `goodEnv`, except that the surface reports a current extent of
1280x719, differing from the requested window size. -/
def mismatchedExtentEnv : InitEnv :=
  { goodEnv with caps := { goodEnv.caps with currentExtentH := 719 } }

/-- `goodEnv`, except that the swapchain implementation hands back
three images although only a minimum of two was requested (an
implementation is free to create more). -/
def threeImageEnv : InitEnv :=
  { goodEnv with swapchainImages := [10, 11, 12] }

/-- `goodEnv`, except that the Win32 surface instance extension is
missing while the generic surface extension is present. -/
def missingWin32Env : InitEnv :=
  { goodEnv with availableInstanceExtensions := [VK_KHR_SURFACE_EXTENSION_NAME] }

/-- The scene an `initialize()` that returned normally leaves behind,
as a function of the environment. -/
def postInitState (env : InitEnv) : SceneState :=
  { window := env.windowHandle
  , inst := true
  , physDev := env.physDevices.head?
  , gqFamIdx := (findGraphicsFamilyFrom env.queueFamilies 0).getD 4294967295
  , device := true
  , grQueue := true
  , surface := true
  , swapchain := true
  , swapchainImgs := env.swapchainImages
  , swapchainImgViews := env.swapchainImages
  , renderPass := true
  , framebuffers := List.range m_sw_num_images
  , cmdPool := true
  , commandBuffers := List.range m_sw_num_images
  , vertShader := true
  , fragShader := true
  , pipelineLayout := true
  , pipeline := true
  , fences := List.replicate m_sw_num_images true
  , presentSemaphoreCreated := true
  , drawSemaphoreCreated := true }

theorem seqStep_ok {r : SceneState × StepResult} {f : SceneState → SceneState × StepResult}
    (h : (seqStep r f).2 = .ok) : r.2 = .ok ∧ seqStep r f = f r.1 := by
  obtain ⟨s, res⟩ := r
  cases res with
  | ok => exact ⟨rfl, rfl⟩
  | thrown e => simp [seqStep] at h
  | ub => simp [seqStep] at h

theorem createWindowAndSurface_ok {env : InitEnv} {s s1 : SceneState}
    (h : createWindowAndSurface env s = (s1, .ok)) :
    s1 = { s with window := env.windowHandle } := by
  unfold createWindowAndSurface at h
  cases hw : env.windowHandle <;> simp [hw] at h <;> simp [h, hw]

theorem initializeVKInstance_ok {env : InitEnv} {s s1 : SceneState}
    (h : initializeVKInstance env s = (s1, .ok)) :
    s1 = { s with inst := true } := by
  unfold initializeVKInstance at h
  split at h
  · simp at h
  · split at h
    · simp at h
    · cases hc : env.instanceCreate <;> rw [hc] at h <;> simp at h <;> simp [h]

theorem selectQueueFamilyAndPhysicalDevice_ok {env : InitEnv} {s s1 : SceneState}
    (h : selectQueueFamilyAndPhysicalDevice env s = (s1, .ok)) :
    s1 = { s with physDev := env.physDevices.head?
                , gqFamIdx := (findGraphicsFamilyFrom env.queueFamilies 0).getD 4294967295 } := by
  unfold selectQueueFamilyAndPhysicalDevice at h
  cases hd : env.physDevices with
  | nil => rw [hd] at h; simp at h
  | cons d rest =>
      rw [hd] at h
      cases hf : findGraphicsFamilyFrom env.queueFamilies 0 <;> rw [hf] at h <;>
        simp at h <;> simp [h, hd, hf]

theorem initializeDevice_ok {env : InitEnv} {s s1 : SceneState}
    (h : initializeDevice env s = (s1, .ok)) :
    s1 = { s with device := true, grQueue := true } := by
  unfold initializeDevice at h
  cases hc : env.deviceCreate <;> rw [hc] at h <;> simp at h <;> simp [h]

theorem createSurface_ok {env : InitEnv} {s s1 : SceneState}
    (h : createSurface env s = (s1, .ok)) :
    s1 = { s with surface := true } := by
  unfold createSurface at h
  cases hc : env.surfaceCreate with
  | exc e => rw [hc] at h; simp at h
  | success o =>
      rw [hc] at h
      cases o with
      | none => simp at h
      | some v =>
          simp at h
          split at h
          · simp at h
          · simp at h; simp [h]

theorem createSwapChainAndImages_ok {env : InitEnv} {s s1 : SceneState}
    (h : createSwapChainAndImages env s = (s1, .ok)) :
    s1 = { s with swapchain := true, swapchainImgs := env.swapchainImages } := by
  unfold createSwapChainAndImages at h
  split at h
  · simp at h
  · split at h
    · simp at h
    · split at h
      · simp at h
      · split at h
        · simp at h
        · split at h
          · simp at h
          · split at h
            · simp at h
            · cases hc : env.swapchainCreate <;> rw [hc] at h <;> simp at h <;> simp [h]

theorem createSwapChainImageViews_ok {env : InitEnv} {s s1 : SceneState}
    (h : createSwapChainImageViews env s = (s1, .ok)) :
    s1 = { s with swapchainImgViews := s.swapchainImgViews ++ s.swapchainImgs } := by
  unfold createSwapChainImageViews at h
  cases hc : env.imageViewCreate <;> rw [hc] at h <;> simp at h <;> simp [h]

theorem createPass_ok {env : InitEnv} {s s1 : SceneState}
    (h : createPass env s = (s1, .ok)) :
    s1 = { s with renderPass := true } := by
  unfold createPass at h
  cases hc : env.renderPassCreate <;> rw [hc] at h <;> simp at h <;> simp [h]

theorem createFramebuffer_ok {env : InitEnv} {s s1 : SceneState}
    (h : createFramebuffer env s = (s1, .ok)) :
    s1 = { s with framebuffers := s.framebuffers ++ List.range m_sw_num_images } := by
  unfold createFramebuffer at h
  split at h
  · simp at h
  · cases hc : env.framebufferCreate <;> rw [hc] at h <;> simp at h <;> simp [h]

theorem allocateCommandBuffers_ok {env : InitEnv} {s s1 : SceneState}
    (h : allocateCommandBuffers env s = (s1, .ok)) :
    s1 = { s with cmdPool := true, commandBuffers := List.range m_sw_num_images } := by
  unfold allocateCommandBuffers at h
  cases hc : env.commandPoolCreate <;> rw [hc] at h <;> simp at h
  cases hb : env.commandBufferAlloc <;> rw [hb] at h <;> simp at h <;> simp [h]

theorem createShaderInterface_ok {env : InitEnv} {s s1 : SceneState}
    (h : createShaderInterface env s = (s1, .ok)) :
    s1 = { s with pipelineLayout := true } := by
  unfold createShaderInterface at h
  cases hc : env.pipelineLayoutCreate <;> rw [hc] at h <;> simp at h <;> simp [h]

theorem createPipeline_ok {env : InitEnv} {s s1 : SceneState}
    (h : createPipeline env s = (s1, .ok)) :
    s1 = { s with vertShader := true, fragShader := true, pipeline := true } := by
  unfold createPipeline at h
  cases hv : env.vertShaderCreate <;> rw [hv] at h <;> simp at h
  cases hf : env.fragShaderCreate <;> rw [hf] at h <;> simp at h
  cases hp : env.pipelineCreate <;> rw [hp] at h <;> simp at h <;> simp [h]

theorem initSyncEntities_ok {env : InitEnv} {s s1 : SceneState}
    (h : initSyncEntities env s = (s1, .ok)) :
    s1 = { s with fences := s.fences ++ List.replicate m_sw_num_images true
                , drawSemaphoreCreated := true, presentSemaphoreCreated := true } := by
  unfold initSyncEntities at h
  cases hf : env.fenceCreate <;> rw [hf] at h <;> simp at h
  cases hs : env.semaphoreCreate <;> rw [hs] at h <;> simp at h <;> simp [h]

theorem seqStep_ok_eq {s : SceneState} {f : SceneState → SceneState × StepResult} :
    seqStep (s, StepResult.ok) f = f s := rfl

theorem seqStep_thrown_eq {s : SceneState} {e : VkError}
    {f : SceneState → SceneState × StepResult} :
    seqStep (s, StepResult.thrown e) f = (s, StepResult.thrown e) := rfl

theorem seqStep_ub_eq {s : SceneState} {f : SceneState → SceneState × StepResult} :
    seqStep (s, StepResult.ub) f = (s, StepResult.ub) := rfl

theorem initializeScene_ok_fields (env : InitEnv)
    (h : (initializeScene env initialScene).2 = StepResult.ok) :
    (initializeScene env initialScene).1.fences = List.replicate m_sw_num_images true ∧
    (initializeScene env initialScene).1.commandBuffers = List.range m_sw_num_images ∧
    (initializeScene env initialScene).1.framebuffers = List.range m_sw_num_images ∧
    (initializeScene env initialScene).1.swapchainImgs = env.swapchainImages := by
  unfold initializeScene at h ⊢
  rcases hA : createWindowAndSurface env initialScene with ⟨s1, r1⟩
  rw [hA] at h
  cases r1 with
  | thrown e => simp [seqStep_thrown_eq] at h
  | ub => simp [seqStep_ub_eq] at h
  | ok =>
    simp only [seqStep_ok_eq] at h ⊢
    rcases hB : initializeVKInstance env s1 with ⟨s2, r2⟩
    rw [hB] at h
    cases r2 with
    | thrown e => simp [seqStep_thrown_eq] at h
    | ub => simp [seqStep_ub_eq] at h
    | ok =>
      simp only [seqStep_ok_eq] at h ⊢
      rcases hC : selectQueueFamilyAndPhysicalDevice env s2 with ⟨s3, r3⟩
      rw [hC] at h
      cases r3 with
      | thrown e => simp [seqStep_thrown_eq] at h
      | ub => simp [seqStep_ub_eq] at h
      | ok =>
        simp only [seqStep_ok_eq] at h ⊢
        rcases hD : initializeDevice env s3 with ⟨s4, r4⟩
        rw [hD] at h
        cases r4 with
        | thrown e => simp [seqStep_thrown_eq] at h
        | ub => simp [seqStep_ub_eq] at h
        | ok =>
          simp only [seqStep_ok_eq] at h ⊢
          rcases hE : createSurface env s4 with ⟨s5, r5⟩
          rw [hE] at h
          cases r5 with
          | thrown e => simp [seqStep_thrown_eq] at h
          | ub => simp [seqStep_ub_eq] at h
          | ok =>
            simp only [seqStep_ok_eq] at h ⊢
            rcases hF : createSwapChainAndImages env s5 with ⟨s6, r6⟩
            rw [hF] at h
            cases r6 with
            | thrown e => simp [seqStep_thrown_eq] at h
            | ub => simp [seqStep_ub_eq] at h
            | ok =>
              simp only [seqStep_ok_eq] at h ⊢
              rcases hG : createSwapChainImageViews env s6 with ⟨s7, r7⟩
              rw [hG] at h
              cases r7 with
              | thrown e => simp [seqStep_thrown_eq] at h
              | ub => simp [seqStep_ub_eq] at h
              | ok =>
                simp only [seqStep_ok_eq] at h ⊢
                rcases hH : createPass env s7 with ⟨s8, r8⟩
                rw [hH] at h
                cases r8 with
                | thrown e => simp [seqStep_thrown_eq] at h
                | ub => simp [seqStep_ub_eq] at h
                | ok =>
                  simp only [seqStep_ok_eq] at h ⊢
                  rcases hI : createFramebuffer env s8 with ⟨s9, r9⟩
                  rw [hI] at h
                  cases r9 with
                  | thrown e => simp [seqStep_thrown_eq] at h
                  | ub => simp [seqStep_ub_eq] at h
                  | ok =>
                    simp only [seqStep_ok_eq] at h ⊢
                    rcases hJ : allocateCommandBuffers env s9 with ⟨s10, r10⟩
                    rw [hJ] at h
                    cases r10 with
                    | thrown e => simp [seqStep_thrown_eq] at h
                    | ub => simp [seqStep_ub_eq] at h
                    | ok =>
                      simp only [seqStep_ok_eq] at h ⊢
                      rcases hK : createShaderInterface env s10 with ⟨s11, r11⟩
                      rw [hK] at h
                      cases r11 with
                      | thrown e => simp [seqStep_thrown_eq] at h
                      | ub => simp [seqStep_ub_eq] at h
                      | ok =>
                        simp only [seqStep_ok_eq] at h ⊢
                        rcases hL : createPipeline env s11 with ⟨s12, r12⟩
                        rw [hL] at h
                        cases r12 with
                        | thrown e => simp [seqStep_thrown_eq] at h
                        | ub => simp [seqStep_ub_eq] at h
                        | ok =>
                          simp only [seqStep_ok_eq] at h ⊢
                          have F1 : s1.fences = ([] : List Bool) ∧ s1.commandBuffers = ([] : List Nat) ∧ s1.framebuffers = ([] : List Nat) ∧ s1.swapchainImgs = ([] : List Nat) := by
                            simp [createWindowAndSurface_ok hA, initialScene]
                          have F2 : s2.fences = ([] : List Bool) ∧ s2.commandBuffers = ([] : List Nat) ∧ s2.framebuffers = ([] : List Nat) ∧ s2.swapchainImgs = ([] : List Nat) := by
                            simp [initializeVKInstance_ok hB, F1]
                          have F3 : s3.fences = ([] : List Bool) ∧ s3.commandBuffers = ([] : List Nat) ∧ s3.framebuffers = ([] : List Nat) ∧ s3.swapchainImgs = ([] : List Nat) := by
                            simp [selectQueueFamilyAndPhysicalDevice_ok hC, F2]
                          have F4 : s4.fences = ([] : List Bool) ∧ s4.commandBuffers = ([] : List Nat) ∧ s4.framebuffers = ([] : List Nat) ∧ s4.swapchainImgs = ([] : List Nat) := by
                            simp [initializeDevice_ok hD, F3]
                          have F5 : s5.fences = ([] : List Bool) ∧ s5.commandBuffers = ([] : List Nat) ∧ s5.framebuffers = ([] : List Nat) ∧ s5.swapchainImgs = ([] : List Nat) := by
                            simp [createSurface_ok hE, F4]
                          have F6 : s6.fences = ([] : List Bool) ∧ s6.commandBuffers = ([] : List Nat) ∧ s6.framebuffers = ([] : List Nat) ∧ s6.swapchainImgs = env.swapchainImages := by
                            simp [createSwapChainAndImages_ok hF, F5]
                          have F7 : s7.fences = ([] : List Bool) ∧ s7.commandBuffers = ([] : List Nat) ∧ s7.framebuffers = ([] : List Nat) ∧ s7.swapchainImgs = env.swapchainImages := by
                            simp [createSwapChainImageViews_ok hG, F6]
                          have F8 : s8.fences = ([] : List Bool) ∧ s8.commandBuffers = ([] : List Nat) ∧ s8.framebuffers = ([] : List Nat) ∧ s8.swapchainImgs = env.swapchainImages := by
                            simp [createPass_ok hH, F7]
                          have F9 : s9.fences = ([] : List Bool) ∧ s9.commandBuffers = ([] : List Nat) ∧ s9.framebuffers = List.range m_sw_num_images ∧ s9.swapchainImgs = env.swapchainImages := by
                            simp [createFramebuffer_ok hI, F8]
                          have F10 : s10.fences = ([] : List Bool) ∧ s10.commandBuffers = List.range m_sw_num_images ∧ s10.framebuffers = List.range m_sw_num_images ∧ s10.swapchainImgs = env.swapchainImages := by
                            simp [allocateCommandBuffers_ok hJ, F9]
                          have F11 : s11.fences = ([] : List Bool) ∧ s11.commandBuffers = List.range m_sw_num_images ∧ s11.framebuffers = List.range m_sw_num_images ∧ s11.swapchainImgs = env.swapchainImages := by
                            simp [createShaderInterface_ok hK, F10]
                          have F12 : s12.fences = ([] : List Bool) ∧ s12.commandBuffers = List.range m_sw_num_images ∧ s12.framebuffers = List.range m_sw_num_images ∧ s12.swapchainImgs = env.swapchainImages := by
                            simp [createPipeline_ok hL, F11]
                          rcases hM : initSyncEntities env s12 with ⟨sF, rF⟩
                          rw [hM] at h
                          cases rF with
                          | thrown e => simp at h
                          | ub => simp at h
                          | ok =>
                            simp [initSyncEntities_ok hM, F12]

theorem runScene_scene_eq (s : SceneState) (stims : List FrameStim) :
    (runScene s stims).scene = s := by
  induction stims with
  | nil => rfl
  | cons st rest ih =>
      unfold runScene
      rcases hi : runIter st with ⟨tr, o⟩
      cases o <;> simp [ih]

theorem shutdown_scene_eq (wr : VkResult Unit) (g : GlfwState) (s : SceneState) :
    (shutdown wr g s).scene = s := by
  unfold shutdown
  cases hw : s.window <;> simp

theorem shutdown_glfw_uninitialized (wr : VkResult Unit) (g : GlfwState)
    (s : SceneState) : (shutdown wr g s).glfw.initialized = false := by
  unfold shutdown glfwDestroyWindow glfwTerminate
  cases hw : s.window <;> cases hg : g.initialized <;> simp [hg]

theorem shutdown_released_of_uninitialized (wr : VkResult Unit) (g : GlfwState)
    (s : SceneState) (hg : g.initialized = false) :
    (shutdown wr g s).released = [] := by
  unfold shutdown glfwDestroyWindow glfwTerminate
  cases hw : s.window <;> simp [hg]

/-- C1: after the first lifecycle, if `run()` (or `initialize()`)
raised a device-loss error, `main` marks the `device_lost` flag, still
calls `shutdown()` on the first `Scene`, then constructs a brand-new
`Scene` and calls only `initialize()` on it (never `run()`); if
device-loss was not flagged, `main` returns after the first lifecycle
and no second `Scene` is ever constructed. -/
theorem main_recreation_protocol (init1 run1 init2 : VkResult Unit) :
    (firstLifecycleDeviceLost init1 run1 = true →
      (mainModel init1 run1 init2).deviceLost = true ∧
      (mainModel init1 run1 init2).scene1ShutdownCalls = 1 ∧
      (mainModel init1 run1 init2).scene2Constructed = true ∧
      (mainModel init1 run1 init2).scene2InitCalled = true ∧
      (mainModel init1 run1 init2).scene2RunCalled = false) ∧
    (firstLifecycleDeviceLost init1 run1 = false →
      (mainModel init1 run1 init2).deviceLost = false ∧
      (mainModel init1 run1 init2).scene1ShutdownCalls = 1 ∧
      (mainModel init1 run1 init2).scene2Constructed = false ∧
      (mainModel init1 run1 init2).scene2InitCalled = false) := by
  rcases init1 with _ | (_ | _) <;> rcases run1 with _ | (_ | _) <;>
    rcases init2 with _ | (_ | _) <;>
    simp [mainModel, firstLifecycleDeviceLost]

/-- Witness for C1: at concrete outcomes, a device-lost `run()` leads
to a second scene with no `run()`, and a clean first lifecycle leads
to no second scene. -/
theorem main_recreation_protocol_witness :
    ((mainModel (VkResult.success ()) (VkResult.exc VkError.deviceLost)
        (VkResult.success ())).scene2Constructed = true ∧
     (mainModel (VkResult.success ()) (VkResult.exc VkError.deviceLost)
        (VkResult.success ())).scene2RunCalled = false) ∧
    (mainModel (VkResult.success ()) (VkResult.success ())
        (VkResult.success ())).scene2Constructed = false :=
  ⟨⟨((main_recreation_protocol _ _ _).1 (by decide)).2.2.1,
    ((main_recreation_protocol _ _ _).1 (by decide)).2.2.2.2⟩,
   ((main_recreation_protocol (VkResult.success ()) (VkResult.success ())
      (VkResult.success ())).2 (by decide)).2.2.1⟩

/-- C4 counterexample: the claim says a device-loss error raised
during `initialize()` is not caught by the device-loss handler and
does not trigger re-creation; but the `try` block of `main` wraps
`initialize()` and `run()` together, so when the first `initialize()`
throws device-loss the flag is set and a second scene is constructed
and initialised. -/
theorem deviceLost_in_init_caught_counterexample :
    (mainModel (VkResult.exc VkError.deviceLost) (VkResult.success ())
       (VkResult.success ())).deviceLost = true ∧
    (mainModel (VkResult.exc VkError.deviceLost) (VkResult.success ())
       (VkResult.success ())).scene2Constructed = true ∧
    (mainModel (VkResult.exc VkError.deviceLost) (VkResult.success ())
       (VkResult.success ())).scene2InitCalled = true := by decide

/-- C4 (amended): the device-loss handler is at the outermost scope
around both `initialize()` and `run()`: device-loss from either call
of the first lifecycle sets the flag and triggers exactly one
re-creation attempt, on which `run()` is never called; device-loss
from the first `initialize()` skips the first `run()`. -/
theorem deviceLost_catch_wraps_both (init1 run1 init2 : VkResult Unit) :
    ((mainModel init1 run1 init2).deviceLost = firstLifecycleDeviceLost init1 run1) ∧
    (firstLifecycleDeviceLost init1 run1 = true →
      (mainModel init1 run1 init2).scene2Constructed = true ∧
      (mainModel init1 run1 init2).scene2InitCalled = true ∧
      (mainModel init1 run1 init2).scene2RunCalled = false) ∧
    (init1 = VkResult.exc VkError.deviceLost →
      (mainModel init1 run1 init2).run1Called = false) := by
  rcases init1 with _ | (_ | _) <;> rcases run1 with _ | (_ | _) <;>
    rcases init2 with _ | (_ | _) <;>
    simp [mainModel, firstLifecycleDeviceLost]

/-- Witness for the amended C4 at a concrete device-loss from
`run()`. -/
theorem deviceLost_catch_wraps_both_witness :
    (mainModel (VkResult.success ()) (VkResult.exc VkError.deviceLost)
       (VkResult.success ())).scene2InitCalled = true ∧
    (mainModel (VkResult.success ()) (VkResult.exc VkError.deviceLost)
       (VkResult.success ())).scene2RunCalled = false :=
  ⟨(((deviceLost_catch_wraps_both _ _ _).2.1 (by decide)).2.1),
   (((deviceLost_catch_wraps_both _ _ _).2.1 (by decide)).2.2)⟩

/-- C5: the exit code is 0 on a clean single run with no device loss
and no error, 0 after device loss followed by a successful
re-initialisation, and 1 whenever any reached stage of either
lifecycle (including the re-initialisation) raises a non-device-loss
error. -/
theorem main_exit_codes (init1 run1 init2 : VkResult Unit) :
    (init1 = VkResult.success () → run1 = VkResult.success () →
      (mainModel init1 run1 init2).returnValue = 0) ∧
    (firstLifecycleDeviceLost init1 run1 = true → init2 = VkResult.success () →
      (mainModel init1 run1 init2).returnValue = 0) ∧
    (isNonDeviceLossError init1 = true →
      (mainModel init1 run1 init2).returnValue = 1) ∧
    (init1 = VkResult.success () → isNonDeviceLossError run1 = true →
      (mainModel init1 run1 init2).returnValue = 1) ∧
    (firstLifecycleDeviceLost init1 run1 = true → isNonDeviceLossError init2 = true →
      (mainModel init1 run1 init2).returnValue = 1) := by
  rcases init1 with _ | (_ | _) <;> rcases run1 with _ | (_ | _) <;>
    rcases init2 with _ | (_ | _) <;>
    simp [mainModel, firstLifecycleDeviceLost, isNonDeviceLossError]

/-- Witness for C5: a clean run exits 0; device loss then successful
re-init exits 0; a setup error during re-init exits 1. -/
theorem main_exit_codes_witness :
    (mainModel (VkResult.success ()) (VkResult.success ())
       (VkResult.success ())).returnValue = 0 ∧
    (mainModel (VkResult.success ()) (VkResult.exc VkError.deviceLost)
       (VkResult.success ())).returnValue = 0 ∧
    (mainModel (VkResult.success ()) (VkResult.exc VkError.deviceLost)
       (VkResult.exc (VkError.runtimeError "Can not create Surface!"))).returnValue = 1 :=
  ⟨(main_exit_codes _ _ _).1 rfl rfl,
   (main_exit_codes _ _ _).2.1 (by decide) rfl,
   (main_exit_codes (VkResult.success ()) (VkResult.exc VkError.deviceLost)
      (VkResult.exc (VkError.runtimeError "Can not create Surface!"))).2.2.2.2
     (by decide) (by decide)⟩

/-- C2 (amended): from every state whose `m_window` member has been
assigned — partially initialised after a failed `initialize()`
(`createWindowAndSurface` assigns `m_window` before anything in
`initialize()` can throw, so this is every state the program's
`shutdown()` calls actually reach), fully initialised, or already shut
down — `shutdown()` has a defined outcome and is safe and idempotent
in its effects: it never throws (it is a total function whose result
does not depend on the outcome of the swallowed device wait), it waits
for the device exactly when one exists and only then releases the
window, it resets no member, and two consecutive calls never release
any window handle twice — after the first call's `glfwTerminate` the
library is de-initialised, so the second call's `glfwDestroyWindow`
releases nothing.  (On a truly never-initialised instance the member
read itself is undefined behaviour; see the counterexample.) -/
theorem shutdown_safe_idempotent (wr wr1 wr2 : VkResult Unit) (g : GlfwState)
    (s : SceneState) (hnd : g.windows.Nodup) :
    (shutdownChecked wr1 g (some s.window) s = some (shutdown wr1 g s)) ∧
    (shutdown wr1 g s = shutdown wr2 g s) ∧
    ((shutdown wr g s).calls =
      (if s.device then [ApiCall.deviceWaitIdle] else []) ++
        (match s.window with
         | some h => [ApiCall.glfwDestroyWindowCall h, ApiCall.glfwTerminateCall]
         | none => [ApiCall.glfwTerminateCall])) ∧
    ((shutdown wr g s).scene = s) ∧
    (∀ h : Nat,
      ((shutdown wr g s).released ++
        (shutdown wr (shutdown wr g s).glfw (shutdown wr g s).scene).released).count h ≤ 1) := by
  refine ⟨rfl, rfl, ?_, shutdown_scene_eq wr g s, ?_⟩
  · unfold shutdown
    cases s.window <;> simp
  · intro h
    have h2 : (shutdown wr (shutdown wr g s).glfw (shutdown wr g s).scene).released = [] :=
      shutdown_released_of_uninitialized _ _ _ (shutdown_glfw_uninitialized wr g s)
    rw [h2, List.append_nil]
    have hcount : ∀ a : Nat, g.windows.count a ≤ 1 :=
      List.nodup_iff_count_le_one.mp hnd
    unfold shutdown glfwDestroyWindow glfwTerminate
    cases hw : s.window with
    | none =>
        cases hg : g.initialized <;> simp
        exact hcount h
    | some h0 =>
        cases hg : g.initialized <;> simp [hg]
        by_cases he : h = h0
        · subst he
          simp [List.count_cons]
          have hce := List.count_erase_self h g.windows
          have hc := hcount h
          omega
        · simp [List.count_cons, he]
          exact hcount h

theorem createWindowAndSurface_preserves (env : InitEnv) (s : SceneState) :
    (createWindowAndSurface env s).1.swapchain = s.swapchain ∧
    (createWindowAndSurface env s).1.swapchainImgs = s.swapchainImgs := by
  unfold createWindowAndSurface
  rcases hw : env.windowHandle with _ | w <;> simp

theorem initializeVKInstance_preserves (env : InitEnv) (s : SceneState) :
    (initializeVKInstance env s).1.swapchain = s.swapchain ∧
    (initializeVKInstance env s).1.swapchainImgs = s.swapchainImgs := by
  unfold initializeVKInstance
  split
  · simp
  · split
    · simp
    · rcases hc : env.instanceCreate with _ | e <;> simp

theorem selectQueueFamilyAndPhysicalDevice_preserves (env : InitEnv) (s : SceneState) :
    (selectQueueFamilyAndPhysicalDevice env s).1.swapchain = s.swapchain ∧
    (selectQueueFamilyAndPhysicalDevice env s).1.swapchainImgs = s.swapchainImgs := by
  unfold selectQueueFamilyAndPhysicalDevice
  rcases hd : env.physDevices with _ | ⟨d, rest⟩
  · simp
  · rcases hf : findGraphicsFamilyFrom env.queueFamilies 0 with _ | i <;> simp

theorem initializeDevice_preserves (env : InitEnv) (s : SceneState) :
    (initializeDevice env s).1.swapchain = s.swapchain ∧
    (initializeDevice env s).1.swapchainImgs = s.swapchainImgs := by
  unfold initializeDevice
  rcases hc : env.deviceCreate with _ | e <;> simp

theorem createSurface_preserves (env : InitEnv) (s : SceneState) :
    (createSurface env s).1.swapchain = s.swapchain ∧
    (createSurface env s).1.swapchainImgs = s.swapchainImgs := by
  unfold createSurface
  rcases hc : env.surfaceCreate with o | e
  · rcases o with _ | v
    · simp
    · cases hs : env.surfaceSupport <;> simp [hs]
  · simp

theorem createSwapChainAndImages_mismatch {env : InitEnv} {s : SceneState}
    (hm : m_width ≠ env.caps.currentExtentW ∨ m_height ≠ env.caps.currentExtentH) :
    createSwapChainAndImages env s =
      (s, StepResult.thrown (VkError.runtimeError
        "chosen image size not supported by window surface")) := by
  unfold createSwapChainAndImages
  rw [if_pos hm]

/-- C3 counterexample: with every external call succeeding but the
surface reporting extent 1280x719, `initialize()` fails at the size
check — yet the logical device has already been created by then, so
the failure does not happen "before any device object is created". -/
theorem extent_mismatch_device_created_counterexample :
    (initializeScene mismatchedExtentEnv initialScene).2 =
      StepResult.thrown (VkError.runtimeError
        "chosen image size not supported by window surface") ∧
    (initializeScene mismatchedExtentEnv initialScene).1.device = true ∧
    (initializeScene mismatchedExtentEnv initialScene).1.swapchain = false := by
  refine ⟨by decide, by decide, by decide⟩

/-- C3 (amended): whenever the requested window size (1280x720)
differs from the surface's reported current extent, `initialize()`
fails before any swapchain object has been created (no swapchain and
no swapchain images exist afterwards); the logical device, however,
may already have been created when the size check runs. -/
theorem extent_mismatch_fails_before_swapchain (env : InitEnv)
    (hm : m_width ≠ env.caps.currentExtentW ∨ m_height ≠ env.caps.currentExtentH) :
    (initializeScene env initialScene).2 ≠ StepResult.ok ∧
    (initializeScene env initialScene).1.swapchain = false ∧
    (initializeScene env initialScene).1.swapchainImgs = [] := by
  unfold initializeScene
  rcases hA : createWindowAndSurface env initialScene with ⟨s1, r1⟩
  have pA := createWindowAndSurface_preserves env initialScene
  rw [hA] at pA
  simp [initialScene] at pA
  cases r1 with
  | thrown e => simp [seqStep_thrown_eq, pA.1, pA.2]
  | ub => simp [seqStep_ub_eq, pA.1, pA.2]
  | ok =>
    simp only [seqStep_ok_eq]
    rcases hB : initializeVKInstance env s1 with ⟨s2, r2⟩
    have pB := initializeVKInstance_preserves env s1
    rw [hB] at pB
    simp [pA.1, pA.2] at pB
    cases r2 with
    | thrown e => simp [seqStep_thrown_eq, pB.1, pB.2]
    | ub => simp [seqStep_ub_eq, pB.1, pB.2]
    | ok =>
      simp only [seqStep_ok_eq]
      rcases hC : selectQueueFamilyAndPhysicalDevice env s2 with ⟨s3, r3⟩
      have pC := selectQueueFamilyAndPhysicalDevice_preserves env s2
      rw [hC] at pC
      simp [pB.1, pB.2] at pC
      cases r3 with
      | thrown e => simp [seqStep_thrown_eq, pC.1, pC.2]
      | ub => simp [seqStep_ub_eq, pC.1, pC.2]
      | ok =>
        simp only [seqStep_ok_eq]
        rcases hD : initializeDevice env s3 with ⟨s4, r4⟩
        have pD := initializeDevice_preserves env s3
        rw [hD] at pD
        simp [pC.1, pC.2] at pD
        cases r4 with
        | thrown e => simp [seqStep_thrown_eq, pD.1, pD.2]
        | ub => simp [seqStep_ub_eq, pD.1, pD.2]
        | ok =>
          simp only [seqStep_ok_eq]
          rcases hE : createSurface env s4 with ⟨s5, r5⟩
          have pE := createSurface_preserves env s4
          rw [hE] at pE
          simp [pD.1, pD.2] at pE
          cases r5 with
          | thrown e => simp [seqStep_thrown_eq, pE.1, pE.2]
          | ub => simp [seqStep_ub_eq, pE.1, pE.2]
          | ok =>
            simp only [seqStep_ok_eq]
            rw [createSwapChainAndImages_mismatch hm, seqStep_thrown_eq]
            simp [pE.1, pE.2]

/-- Witness for the amended C3 at the concrete mismatching
environment. -/
theorem extent_mismatch_fails_before_swapchain_witness :
    (initializeScene mismatchedExtentEnv initialScene).2 ≠ StepResult.ok ∧
    (initializeScene mismatchedExtentEnv initialScene).1.swapchain = false ∧
    (initializeScene mismatchedExtentEnv initialScene).1.swapchainImgs = [] :=
  extent_mismatch_fails_before_swapchain mismatchedExtentEnv (by decide)

/-- C6: every iteration of `run()` performs, in strict order: poll
events and break if the close flag is set; otherwise acquire the next
image index with no timeout; wait without timeout on that image's
fence and reset it; record a command buffer that begins a render pass
clearing to opaque blue, binds the fixed pipeline, draws 3 vertices
and 1 instance, and ends pass and recording; submit waiting on the
image-available (`m_draw_semaphore`) at the colour-attachment-output
stage, signalling render-complete (`m_present_semaphore`) and the
per-image fence; then present waiting on render-complete. -/
theorem runScene_cons (s : SceneState) (st : FrameStim) (rest : List FrameStim) :
    runScene s (st :: rest) =
      match runIter st with
      | (tr, some r) => { scene := s, trace := tr, outcome := some r }
      | (tr, none) =>
          { scene := (runScene s rest).scene
          , trace := tr ++ (runScene s rest).trace
          , outcome := (runScene s rest).outcome } := by
  rcases hi : runIter st with ⟨tr, o⟩
  cases o with
  | none =>
      conv_lhs => rw [runScene]
      rw [hi]
  | some r =>
      conv_lhs => rw [runScene]
      rw [hi]

theorem run_iteration_call_order (s : SceneState) (st st1 : FrameStim) (i : Nat)
    (rest : List FrameStim)
    (hclose : st.windowShouldClose = false)
    (hacq : st.acquire = VkResult.success i)
    (hw : st.fenceWait = VkResult.success ())
    (hs : st.submitRes = VkResult.success ())
    (hp : st.presentRes = VkResult.success ())
    (hclose1 : st1.windowShouldClose = true) :
    runScene s (st :: rest) =
      { scene := (runScene s rest).scene
      , trace :=
          [ ApiCall.pollEvents
          , ApiCall.acquireNextImageKHR UINT64_MAX Sem.drawSemaphore
          , ApiCall.waitForFences i true UINT64_MAX
          , ApiCall.resetFences i
          , ApiCall.cmdBegin i
          , ApiCall.cmdBeginRenderPass i i 0 0 1 1
          , ApiCall.cmdBindPipeline i
          , ApiCall.cmdDraw i 3 1 0 0
          , ApiCall.cmdEndRenderPass i
          , ApiCall.cmdEnd i
          , ApiCall.queueSubmit i Sem.drawSemaphore PipelineStage.colorAttachmentOutput
              Sem.presentSemaphore i
          , ApiCall.queuePresentKHR Sem.presentSemaphore i ] ++ (runScene s rest).trace
      , outcome := (runScene s rest).outcome } ∧
    runScene s (st1 :: rest) =
      { scene := s, trace := [ApiCall.pollEvents]
      , outcome := some (VkResult.success ()) } := by
  constructor
  · have hr : runIter st =
        ([ ApiCall.pollEvents
         , ApiCall.acquireNextImageKHR UINT64_MAX Sem.drawSemaphore
         , ApiCall.waitForFences i true UINT64_MAX
         , ApiCall.resetFences i
         , ApiCall.cmdBegin i
         , ApiCall.cmdBeginRenderPass i i 0 0 1 1
         , ApiCall.cmdBindPipeline i
         , ApiCall.cmdDraw i 3 1 0 0
         , ApiCall.cmdEndRenderPass i
         , ApiCall.cmdEnd i
         , ApiCall.queueSubmit i Sem.drawSemaphore PipelineStage.colorAttachmentOutput
             Sem.presentSemaphore i
         , ApiCall.queuePresentKHR Sem.presentSemaphore i ], none) := by
      unfold runIter
      simp [hclose, hacq, hw, hs, hp, buildCommandBuffer]
    rw [runScene_cons, hr]
  · have hr1 : runIter st1 = ([ApiCall.pollEvents], some (VkResult.success ())) := by
      unfold runIter
      simp [hclose1]
    rw [runScene_cons, hr1]
  

/-- Witness for C6 at a concrete all-success iteration followed by a
closing one. -/
theorem run_iteration_call_order_witness :
    (runScene initialScene
      [{ windowShouldClose := false, acquire := VkResult.success 1
       , fenceWait := VkResult.success (), submitRes := VkResult.success ()
       , presentRes := VkResult.success () }]).trace =
      [ ApiCall.pollEvents
      , ApiCall.acquireNextImageKHR UINT64_MAX Sem.drawSemaphore
      , ApiCall.waitForFences 1 true UINT64_MAX
      , ApiCall.resetFences 1
      , ApiCall.cmdBegin 1
      , ApiCall.cmdBeginRenderPass 1 1 0 0 1 1
      , ApiCall.cmdBindPipeline 1
      , ApiCall.cmdDraw 1 3 1 0 0
      , ApiCall.cmdEndRenderPass 1
      , ApiCall.cmdEnd 1
      , ApiCall.queueSubmit 1 Sem.drawSemaphore PipelineStage.colorAttachmentOutput
          Sem.presentSemaphore 1
      , ApiCall.queuePresentKHR Sem.presentSemaphore 1 ] := by
  have h := (run_iteration_call_order initialScene
    { windowShouldClose := false, acquire := VkResult.success 1
    , fenceWait := VkResult.success (), submitRes := VkResult.success ()
    , presentRes := VkResult.success () }
    { windowShouldClose := true, acquire := VkResult.success 0
    , fenceWait := VkResult.success (), submitRes := VkResult.success ()
    , presentRes := VkResult.success () } 1 [] rfl rfl rfl rfl rfl rfl).1
  rw [h]
  simp [runScene]

/-- C7 counterexample: in an environment in which every call succeeds
but the driver hands back three swapchain images for the requested
minimum of two, `initialize()` succeeds with a swap-image count of 3,
while the configured image count is 2. -/
theorem swap_image_count_counterexample :
    (initializeScene threeImageEnv initialScene).2 = StepResult.ok ∧
    (initializeScene threeImageEnv initialScene).1.swapchainImgs.length = 3 := by
  refine ⟨by decide, by decide⟩

/-- C7 (amended): after `initialize()` succeeds, the fence count, the
command-buffer count and the framebuffer count are all equal to the
configured image count 2, and these counts are preserved by `run()`
and `shutdown()`, which leave every `Scene` member unchanged; the
swap-image count, however, equals the number of images the driver
returned for the swapchain, which the program never checks against
its configured count. -/
theorem counts_after_init (env : InitEnv) (wr : VkResult Unit)
    (g : GlfwState) (stims : List FrameStim)
    (h : (initializeScene env initialScene).2 = StepResult.ok) :
    (initializeScene env initialScene).1.fences.length = 2 ∧
    (initializeScene env initialScene).1.commandBuffers.length = 2 ∧
    (initializeScene env initialScene).1.framebuffers.length = 2 ∧
    (initializeScene env initialScene).1.swapchainImgs.length =
      env.swapchainImages.length ∧
    (runScene (initializeScene env initialScene).1 stims).scene =
      (initializeScene env initialScene).1 ∧
    (shutdown wr g (initializeScene env initialScene).1).scene =
      (initializeScene env initialScene).1 := by
  obtain ⟨hf, hc, hfb, hs⟩ := initializeScene_ok_fields env h
  refine ⟨?_, ?_, ?_, ?_, runScene_scene_eq _ _, shutdown_scene_eq _ _ _⟩
  · rw [hf]; simp [m_sw_num_images]
  · rw [hc]; simp [m_sw_num_images]
  · rw [hfb]; simp [m_sw_num_images]
  · rw [hs]

/-- Witness for the amended C7 at the all-success environment. -/
theorem counts_after_init_witness :
    (initializeScene goodEnv initialScene).1.fences.length = 2 ∧
    (initializeScene goodEnv initialScene).1.swapchainImgs.length =
      goodEnv.swapchainImages.length :=
  ⟨(counts_after_init goodEnv (VkResult.success ())
      { initialized := true, windows := [1] } [] (by decide)).1,
   (counts_after_init goodEnv (VkResult.success ())
      { initialized := true, windows := [1] } [] (by decide)).2.2.2.1⟩

/-- C8: the image index acquisition returns is used unchecked to index
the fence, command-buffer and framebuffer vectors; after a successful
`initialize()` each has exactly 2 elements, and the three accesses of
an iteration are in bounds exactly when the acquired index is less
than 2. -/
theorem run_index_in_bounds_iff (env : InitEnv) (i : Nat)
    (h : (initializeScene env initialScene).2 = StepResult.ok) :
    (initializeScene env initialScene).1.fences.length = 2 ∧
    (initializeScene env initialScene).1.commandBuffers.length = 2 ∧
    (initializeScene env initialScene).1.framebuffers.length = 2 ∧
    (runIterAccessesInBounds (initializeScene env initialScene).1 i ↔ i < 2) := by
  obtain ⟨hf, hc, hfb, _⟩ := initializeScene_ok_fields env h
  refine ⟨by rw [hf]; simp [m_sw_num_images], by rw [hc]; simp [m_sw_num_images],
    by rw [hfb]; simp [m_sw_num_images], ?_⟩
  unfold runIterAccessesInBounds
  rw [hf, hc, hfb]
  simp [m_sw_num_images]

/-- Witness for C8: index 1 is in bounds, and applying the theorem at
index 2 shows the accesses there are out of bounds. -/
theorem run_index_in_bounds_iff_witness :
    (runIterAccessesInBounds (initializeScene goodEnv initialScene).1 1 ↔ 1 < 2) ∧
    (runIterAccessesInBounds (initializeScene goodEnv initialScene).1 2 ↔ 2 < 2) :=
  ⟨(run_index_in_bounds_iff goodEnv 1 (by decide)).2.2.2,
   (run_index_in_bounds_iff goodEnv 2 (by decide)).2.2.2⟩

/-- C9: every per-image fence is created in the signalled state
(`vk::FenceCreateFlagBits::eSignaled`), so the first wait on each
image slot's fence returns immediately instead of blocking forever on
a fence no submission has signalled. -/
theorem fences_created_signaled (env : InitEnv)
    (h : (initializeScene env initialScene).2 = StepResult.ok) :
    (initializeScene env initialScene).1.fences =
      List.replicate m_sw_num_images true ∧
    ∀ b ∈ (initializeScene env initialScene).1.fences,
      fenceWaitReturnsImmediately b = true := by
  obtain ⟨hf, _, _, _⟩ := initializeScene_ok_fields env h
  refine ⟨hf, ?_⟩
  rw [hf]
  intro b hb
  rw [List.eq_of_mem_replicate hb]
  rfl

/-- Witness for C9 at the all-success environment. -/
theorem fences_created_signaled_witness :
    (initializeScene goodEnv initialScene).1.fences =
      List.replicate m_sw_num_images true :=
  (fences_created_signaled goodEnv (by decide)).1

/-- C10: when the Win32 surface instance extension is unavailable
(and the generic one is present), `initialize()` throws an error whose
message names the generic `VK_KHR_surface` extension instead of the
Win32 surface extension that is actually missing — the two extension
names differ. -/
theorem missing_win32_extension_message (env : InitEnv)
    (h1 : isInstanceExtensionAvailable env VK_KHR_SURFACE_EXTENSION_NAME = true)
    (h2 : isInstanceExtensionAvailable env VK_KHR_WIN32_SURFACE_EXTENSION_NAME = false)
    (hw : env.windowHandle.isSome = true) :
    (initializeScene env initialScene).2 =
      StepResult.thrown (VkError.runtimeError "VK_KHR_surface is not available!") ∧
    VK_KHR_WIN32_SURFACE_EXTENSION_NAME ≠ VK_KHR_SURFACE_EXTENSION_NAME := by
  refine ⟨?_, by decide⟩
  unfold initializeScene
  rcases hwh : env.windowHandle with _ | w
  · rw [hwh] at hw; simp at hw
  · have e1 : createWindowAndSurface env initialScene =
        ({ initialScene with window := env.windowHandle }, StepResult.ok) := by
      unfold createWindowAndSurface
      rw [hwh]
    rw [e1, seqStep_ok_eq]
    unfold initializeVKInstance
    rw [h1, h2]
    simp [seqStep_thrown_eq, VK_KHR_SURFACE_EXTENSION_NAME]

/-- Witness for C10 at the concrete environment missing only the
Win32 surface extension. -/
theorem missing_win32_extension_message_witness :
    (initializeScene missingWin32Env initialScene).2 =
      StepResult.thrown (VkError.runtimeError "VK_KHR_surface is not available!") :=
  (missing_win32_extension_message missingWin32Env (by decide) (by decide) (by decide)).1

/-- Witness for C2 at a concrete initialised-library state and a scene
owning window handle 1: across two consecutive `shutdown()` calls the
handle is released at most once. -/
theorem shutdown_safe_idempotent_witness :
    ((shutdown (VkResult.success ()) { initialized := true, windows := [1] }
        { initialScene with window := some 1, device := true }).released ++
      (shutdown (VkResult.success ())
        (shutdown (VkResult.success ()) { initialized := true, windows := [1] }
          { initialScene with window := some 1, device := true }).glfw
        (shutdown (VkResult.success ()) { initialized := true, windows := [1] }
          { initialScene with window := some 1, device := true }).scene).released).count 1 ≤ 1 :=
  (shutdown_safe_idempotent (VkResult.success ()) (VkResult.success ())
    (VkResult.success ()) { initialized := true, windows := [1] }
    { initialScene with window := some 1, device := true } (by decide)).2.2.2.2 1

/-- C2 counterexample: the claim asserts `shutdown()` is safe on a
never-initialised `Scene`, but there `m_window` was never assigned
(it has no initialiser), and `shutdown()`'s `if (m_window)` reads the
indeterminate pointer — undefined behaviour, so the call has no
defined outcome at all (while the same call with an assigned member
does have one). -/
theorem shutdown_never_initialized_ub_counterexample :
    shutdownChecked (VkResult.success ()) { initialized := false, windows := [] }
      none initialScene = none ∧
    (shutdownChecked (VkResult.success ()) { initialized := false, windows := [] }
      (some (some 1)) initialScene).isSome = true :=
  ⟨rfl, rfl⟩
